import Mathlib

/-!
Verification development for the stlink-download utility
(src/stlink-download/stlinkv2-util.c).

The definitions below are a shallow embedding of the C source.  Target-side
state (device memory, flash status registers, probe status replies) is
modelled by read oracles `Nat → Nat`; host-side actions issued to the probe
are recorded as explicit traces.  Machine integers are modelled as `Nat`
with `% 2^32` taken exactly where the C code truncates (32-bit stores into
buffers).  Byte buffers assembled by the host are modelled with the layout a
little-endian host produces, which is the layout `write_uint32` and the
`memcpy` of the `uint16_t` loader arrays rely on; host byte order is made
explicit (as a `Bool` parameter) only in the reply-decoding functions, where
the C source itself branches on `is_bigendian()`.
-/

namespace StlinkDownload

/- ==================== Register addresses and constants ====================
   From stlinkv2-util.c lines 279-284, 854-914, 1140, 1351. -/

def FLASH_REGS_ADDR : Nat := 0x40022000
def FLASH_KEYR : Nat := FLASH_REGS_ADDR + 0x04
def FLASH_SR : Nat := FLASH_REGS_ADDR + 0x0c
def FLASH_CR : Nat := FLASH_REGS_ADDR + 0x10
def FLASH_AR : Nat := FLASH_REGS_ADDR + 0x14

def FLASH_KEY1 : Nat := 0x45670123
def FLASH_KEY2 : Nat := 0xcdef89ab

def FLASH_SR_BSY : Nat := 0x0001
def FLASH_SR_PGERR : Nat := 0x0004
def FLASH_SR_WRPRTERR : Nat := 0x0010
def FLASH_SR_EOP : Nat := 0x0020

def FLASH_CR_PER : Nat := 0x0002
def FLASH_CR_MER : Nat := 0x0004
def FLASH_CR_STRT : Nat := 0x0040
def FLASH_CR_LOCK : Nat := 0x0080

def F4_FLASH_REGS : Nat := 0x40023C00
def F4_FLASH_KEYR : Nat := F4_FLASH_REGS + 0x04
def F4_FLASH_SR : Nat := F4_FLASH_REGS + 0x0c
def F4_FLASH_SR_BSY : Nat := 0x00010000
def F4_FLASH_CR : Nat := F4_FLASH_REGS + 0x10
def F4_FLASH_CR_STRT : Nat := 0x00010000

def L15_FLASH_BASE : Nat := 0x40023C00
def L15_FLASH_PEKEYR : Nat := L15_FLASH_BASE + 0x0C
def L15_FLASH_PRGKEYR : Nat := L15_FLASH_BASE + 0x10
def L15_FLASH_SR : Nat := L15_FLASH_BASE + 0x18
def L15_FLASH_OBR : Nat := L15_FLASH_BASE + 0x1C

def L15_FLASH_PEKEY1 : Nat := 0x89abcdef
def L15_FLASH_PEKEY2 : Nat := 0x02030405
def L15_FLASH_PRGKEY1 : Nat := 0x8C9DAEBF
def L15_FLASH_PRGKEY2 : Nat := 0x13141516

def DBGMCU_IDCODE : Nat := 0xE0042000

def STLINK_CORE_HALTED : Nat := 0x81

def FLASH_POLL_LIMIT : Nat := 200
def FLASH_WR_BLK_SIZE : Nat := 2048
def READ_BLK_SIZE : Nat := 1024

/- ==================== Chip capability table ====================
   From stlinkv2-util.c lines 170-258. -/

def ChipCapF4Flash : Nat := 1
def ChipCapL15Flash : Nat := 2
def ChipCapL1Addrs : Nat := 4

structure stm_chip_params where
  name : String
  cap_flags : Nat
  core_id : Nat
  dbgmcu_idcode : Nat
  flash_base : Nat
  flash_size : Nat
  flash_pgsize : Nat
  sysflash_base : Nat
  sysflash_size : Nat
  sysflash_pgsize : Nat
  sram_base : Nat
  sram_size : Nat
  deriving Repr, DecidableEq

def stm_devids : List stm_chip_params := [
  ⟨"STM32", 0, 0x1ba01477, 0x10000400,
   0x08000000, 128*1024, 1024, 0x1fffec00, 2*1024, 1024, 0x20000000, 8*1024⟩,
  ⟨"STM32F051-R8T6", 0, 0x0bb11477, 0x20006440,
   0x08000000, 64*1024, 1024, 0x1fffec00, 8*1024, 1024, 0x20000000, 8*1024⟩,
  ⟨"STM32F100", 0, 0x1ba01477, 0x10016420,
   0x08000000, 128*1024, 1024, 0x1ffff000, 2*1024, 1024, 0x20000000, 8*1024⟩,
  ⟨"STM32F103R4T6", 0, 0x1ba01477, 0x00005e7d,
   0x08000000, 32*1024, 1024, 0x1ffff000, 2*1024, 1024, 0x20000000, 4*1024⟩,
  ⟨"STM32F103C8T6", 0, 0x1ba01477, 0x20036410,
   0x08000000, 64*1024, 1024, 0x1ffff000, 2*1024, 1024, 0x20000000, 20*1024⟩,
  ⟨"STM32F105RB", 0, 0x3ba00477, 0x10016430,
   0x08000000, 32*1024, 1024, 0x1ffff000, 2*1024, 1024, 0x20000000, 4*1024⟩,
  ⟨"STM32F10x", 0, 0x1ba01477, 0x10016412,
   0x08000000, 32*1024, 1024, 0x1ffff000, 2*1024, 1024, 0x20000000, 4*1024⟩,
  ⟨"STM32F10x", 0, 0x1ba01477, 0x10016410,
   0x08000000, 128*1024, 1024, 0x1ffff000, 2*1024, 1024, 0x20000000, 8*1024⟩,
  ⟨"STM32F10x", 0, 0x1ba01477, 0x10016414,
   0x08000000, 512*1024, 1024, 0x1ffff000, 2*1024, 1024, 0x20000000, 8*1024⟩,
  ⟨"STM32F10x", 0, 0x1ba01477, 0x10016430,
   0x08000000, 1024*1024, 2048, 0x1fffe000, 6*1024, 1024, 0x20000000, 8*1024⟩,
  ⟨"STM32F107", 0, 0x1ba01477, 0x10016418,
   0x08000000, 256*1024, 2048, 0x1fffb000, 18*1024, 1024, 0x20000000, 8*1024⟩,
  ⟨"STM32L152", ChipCapL15Flash + ChipCapL1Addrs, 0x1ba01477, 0x10186416,
   0x08000000, 128*1024, 2048, 0x1fffb000, 16*1024, 1024, 0x20000000, 8*1024⟩,
  ⟨"STM32F303VCT6", 0, 0x3ba00477, 0x10016422,
   0x08000000, 256*1024, 2048, 0x1fffb000, 18*1024, 1024, 0x20000000, 8*1024⟩,
  ⟨"STM32F407", ChipCapF4Flash, 0x2ba01477, 0x20006411,
   0x08000000, 256*1024, 2048, 0x1fffb000, 18*1024, 1024, 0x20000000, 8*1024⟩,
  ⟨"STM32F4xx", ChipCapF4Flash, 0x2ba01477, 0x10006420,
   0x08000000, 256*1024, 2048, 0x1fffb000, 18*1024, 1024, 0x20000000, 8*1024⟩]

/-- `stm_devids[0].sram_base`, the SRAM base the loader is downloaded to
(stl_loader, line 1103: `prog_base = stm_devids[0].sram_base`). -/
def sram0 : Nat :=
  (stm_devids.getD 0
    ⟨"", 0, 0, 0, 0, 0, 0, 0, 0, 0, 0, 0⟩).sram_base

/- ==================== Byte-buffer utilities ==================== -/

/-- Byte at index `i` of a buffer (0 when out of range). -/
def byteAt (l : List Nat) (i : Nat) : Nat := (l[i]?).getD 0

/-- Little-endian 32-bit word at byte offset `i` of a buffer. -/
def wordAt (l : List Nat) (i : Nat) : Nat :=
  byteAt l i + 2^8 * byteAt l (i+1) + 2^16 * byteAt l (i+2) +
    2^24 * byteAt l (i+3)

/-- The four bytes a 32-bit store of `x` produces on a little-endian host
(the layout `write_uint32` emits and `params[-4] = ...` stores). -/
def u32BytesLE (x : Nat) : List Nat :=
  [x % 2^8, x / 2^8 % 2^8, x / 2^16 % 2^8, x / 2^24 % 2^8]

/-- Bytes of an array of `uint16_t` values as laid out in memory by a
little-endian host (what `memcpy` of the loader-code arrays copies). -/
def halfwordBytesLE (l : List Nat) : List Nat :=
  l.flatMap (fun h => [h % 2^8, h / 2^8 % 2^8])

/- ==================== Loader programs ====================
   From stlinkv2-util.c lines 1024-1088: db_loader_code (F1/L1) and
   f4_loader_code, arrays of uint16_t including the four trailing
   placeholder parameter words. -/

def db_loader_code : List Nat := [
  0x480B, 0x490C, 0x4A0C, 0x4c09, 0x2501, 0x6125,
  0xf830, 0x3b02, 0xf821, 0x3b02,
  0x3501, 0x68e3, 0xf013, 0x0f01, 0xd1fa,
  0xf013, 0x0f14, 0xd102,
  0x3a01, 0xd1f1,
  0x6122,
  0xbe00,
  0x2000, 0x4002, 0x0040, 0x2000, 0x0bd0, 0x0800, 0x0006, 0x0000]

def f4_loader_code : List Nat := [
  0x480B, 0x490C, 0x4A0C, 0x4c09, 0x2501, 0x6125,
  0xf830, 0x3b02, 0xf821, 0x3b02,
  0x3501, 0x68e3, 0xf013, 0x0f01, 0xd1fa,
  0xf013, 0x0ff0, 0xd102,
  0x3a01, 0xd1f1,
  0x6122,
  0xbe00,
  0x2000, 0x4002, 0x0040, 0x2000, 0x0bd0, 0x0800, 0x0006, 0x0000]

/-- The loader program bytes `stl_loader` memcpy's into `data_buf`
(lines 1107-1113): the F4 variant for an F4-capable chip, else the
F1/L1 variant.  `sizeof(...)` in the source is the length of this list. -/
def stl_loader_code (chip : stm_chip_params) : List Nat :=
  if chip.cap_flags &&& ChipCapF4Flash ≠ 0 then halfwordBytesLE f4_loader_code
  else halfwordBytesLE db_loader_code

/-- The `flash_ctrl_base` value `stl_loader` computes (lines 1107-1119). -/
def stl_loader_ctrl_base (chip : stm_chip_params) (flash_addr : Nat) : Nat :=
  if chip.cap_flags &&& ChipCapF4Flash ≠ 0 then F4_FLASH_REGS
  else if 256*1024 < chip.flash_size ∧ 0x08080000 ≤ flash_addr then 0x40022040
  else FLASH_REGS_ADDR

/-- The SRAM image `stl_loader` assembles in `sl->data_buf`
(lines 1107-1129): the loader program, whose final sixteen bytes (the
placeholder words) are overwritten by the four parameter words
`params[-4..-1] = {flash_ctrl_base, prog_base+offset, flash_addr, size>>1}`,
followed by `size` payload bytes copied from `buf`. -/
def stl_loader_image (chip : stm_chip_params) (flash_addr : Nat)
    (buf : Nat → Nat) (size : Nat) : List Nat :=
  (stl_loader_code chip).take ((stl_loader_code chip).length - 16) ++
    (u32BytesLE (stl_loader_ctrl_base chip flash_addr) ++
     (u32BytesLE (sram0 + (stl_loader_code chip).length) ++
      (u32BytesLE flash_addr ++
       (u32BytesLE (size / 2) ++ (List.range size).map buf))))

/- ==================== Host-action traces ==================== -/

/-- One host-side action issued to the probe (and through it, the target). -/
inductive Act where
  /-- `sl_wr32`: a single 32-bit word write to a target address. -/
  | w32 (addr val : Nat)
  /-- `sl_rd32`: a single 32-bit word read from a target address. -/
  | r32 (addr : Nat)
  /-- `stl_wr32_cmd` taking the `STLinkDebugWriteMem32bit` branch. -/
  | wrMem32 (addr : Nat) (data : List Nat)
  /-- `stl_wr32_cmd` taking the `STLinkDebugWriteMem8bit` branch. -/
  | wrMem8 (addr : Nat) (data : List Nat)
  /-- `stl_write_reg`: write an ARM core register. -/
  | wrReg (idx val : Nat)
  /-- `stl_state_run`: start the core. -/
  | runCore
  /-- `stl_get_status`: one 2-byte status poll. -/
  | getStatus
  deriving Repr, DecidableEq

/-- `stl_wr32_cmd(sl, addr, len)` (lines 644-660): a 32-bit block write when
`len` is a multiple of 4, an 8-bit block write when `len < 64`, and no
transfer at all otherwise (the function returns -1 before `stl_do_cmd`). -/
def stl_wr32_cmd_acts (addr : Nat) (data : List Nat) : List Act :=
  if data.length % 4 = 0 then [Act.wrMem32 addr data]
  else if data.length < 64 then [Act.wrMem8 addr data]
  else []

/-- The actions `stl_loader` issues (lines 1131-1135): upload the combined
image with one `stl_wr32_cmd` of length `offset + size`, set the PC
(register 15) to the SRAM base, and run the core. -/
def stl_loader_acts (chip : stm_chip_params) (flash_addr : Nat)
    (buf : Nat → Nat) (size : Nat) : List Act :=
  stl_wr32_cmd_acts sram0 (stl_loader_image chip flash_addr buf size) ++
    [Act.wrReg 15 sram0, Act.runCore]

/- ==================== stl_flash_write (lines 1140-1194) ==================== -/

/-- The chunk sizes produced by the `do/while` loop of `stl_flash_write`
(lines 1159-1180): `FLASH_WR_BLK_SIZE` while more than that remains, the
remaining size padded to even for an odd tail, else the remaining size.
Structured with a fuel argument (the loop consumes at least one byte per
iteration, so `size` is always enough fuel); `chunkSizes` instantiates it. -/
def chunkSizesF : Nat → Nat → List Nat
  | _, 0 => []
  | size, f+1 =>
    if FLASH_WR_BLK_SIZE < size then
      FLASH_WR_BLK_SIZE :: chunkSizesF (size - FLASH_WR_BLK_SIZE) f
    else if size % 2 = 1 then [size + 1] else [size]

def chunkSizes (size : Nat) : List Nat := chunkSizesF size (size + 1)

/-- The poll loop `while (stl_get_status(sl) != STLINK_CORE_HALTED)
if (++failcount > FLASH_POLL_LIMIT) return 0;` (lines 1170-1177): returns
the index of the first halted status among the first `fuel` polls, `none`
when all of them are not-halted (the loop gives up after
`FLASH_POLL_LIMIT + 1` status reads). -/
def loaderPoll (st : Nat → Nat) : Nat → Nat → Option Nat
  | _, 0 => none
  | i, f+1 =>
    if st i = STLINK_CORE_HALTED then some i else loaderPoll st (i+1) f

/-- The chunk loop of `stl_flash_write`, accumulating (return value, action
trace).  `st c k` is the 2-byte status the probe reports at the k-th poll of
chunk `c`; `sr` is the value the final `sl_rd32(sl, FLASH_SR)` returns.
When a chunk's poll times out the function returns 0 immediately (line
1176), skipping the final status read and the re-lock write. -/
def stl_flash_write_go (chip : stm_chip_params) (fa : Nat) (buf : Nat → Nat)
    (st : Nat → Nat → Nat) (sr : Nat) :
    Nat → Nat → List Nat → Nat × List Act
  | _, _, [] => (sr &&& 0x15, [Act.r32 FLASH_SR, Act.w32 FLASH_CR 0x80])
  | i, off, c :: rest =>
    let la := stl_loader_acts chip (fa + off) (fun j => buf (off + j)) c
    match loaderPoll (st i) 0 (FLASH_POLL_LIMIT + 1) with
    | some k =>
      let r := stl_flash_write_go chip fa buf st sr (i+1) (off + c) rest
      (r.1, la ++ List.replicate (k+1) Act.getStatus ++ r.2)
    | none => (0, la ++ List.replicate (FLASH_POLL_LIMIT + 1) Act.getStatus)

/-- `stl_flash_write(sl, flash_addr, buf, size)` at verbosity 0 (lines
1142-1194): unlock `FLASH_KEYR` with the two keys, clear the `FLASH_SR`
error bits with 0x34, run the chunk loop, then read `FLASH_SR`, mask with
0x15 for the return value, and re-lock by writing 0x80 to `FLASH_CR`.
Returns (return value, full action trace). -/
def stl_flash_write (chip : stm_chip_params) (fa : Nat) (buf : Nat → Nat)
    (size : Nat) (st : Nat → Nat → Nat) (sr : Nat) : Nat × List Act :=
  let r := stl_flash_write_go chip fa buf st sr 0 0 (chunkSizes size)
  (r.1,
   Act.w32 FLASH_KEYR FLASH_KEY1 :: Act.w32 FLASH_KEYR FLASH_KEY2 ::
     Act.w32 FLASH_SR 0x34 :: r.2)

/-- Recognises the direct flash-register operations (`sl_wr32`/`sl_rd32`)
in a trace, as opposed to bulk uploads, register writes, run and status
polls. -/
def isRegAct : Act → Bool
  | Act.w32 _ _ => true
  | Act.r32 _ => true
  | _ => false

/-- Recognises status polls in a trace. -/
def isStatusAct : Act → Bool
  | Act.getStatus => true
  | _ => false

/-- Number of `stl_get_status` polls recorded in a trace. -/
def numPolls (tr : List Act) : Nat := tr.countP isStatusAct

/- ==================== Flash erase drivers (lines 1196-1346) ============ -/

/-- The BSY poll loop shared by the three erase drivers:
`do { status = sl_rd32(sl, SR); i++; } while ((status & mask) && i < 1000)`.
`lastPoll srs mask i f` is the index of the final `FLASH_SR` read when the
loop starts at read `i` with `f` further reads allowed: it stops at the
first read whose `mask` bits are clear, or after exhausting the cap. -/
def lastPoll (srs : Nat → Nat) (mask : Nat) : Nat → Nat → Nat
  | i, 0 => i
  | i, f+1 => if srs i &&& mask = 0 then i else lastPoll srs mask (i+1) f

/-- `stl_f1_flash_erase(sl, addr_page)` at verbosity 0 (lines 1217-1259).
`srs k` is the value the k-th poll of `FLASH_SR` returns.  Result:
(return value, register writes as (address, value) pairs in order, number
of `FLASH_SR` poll reads).  Returns 1 (failure) when `FLASH_SR_EOP` is
clear in the final polled status, else 0. -/
def stl_f1_flash_erase (addr_page : Nat) (srs : Nat → Nat) :
    Nat × List (Nat × Nat) × Nat :=
  let writes :=
    [(FLASH_KEYR, FLASH_KEY1), (FLASH_KEYR, FLASH_KEY2),
     (FLASH_SR, FLASH_SR_EOP ||| FLASH_SR_WRPRTERR ||| FLASH_SR_PGERR)] ++
    (if addr_page = 0xa11 then
      [(FLASH_CR, FLASH_CR_MER), (FLASH_CR, FLASH_CR_STRT ||| FLASH_CR_MER)]
     else
      [(FLASH_AR, addr_page), (FLASH_CR, FLASH_CR_PER),
       (FLASH_CR, FLASH_CR_STRT ||| FLASH_CR_PER)])
  let m := lastPoll srs FLASH_SR_BSY 0 999
  (if srs m &&& FLASH_SR_EOP = 0 then 1 else 0, writes, m + 1)

/-- `stl_f4_flash_erase(sl, addr_page)` at verbosity 0 (lines 1261-1301).
Polls `F4_FLASH_SR` against `F4_FLASH_SR_BSY` with the same 1000-read cap,
then returns 0 unconditionally. -/
def stl_f4_flash_erase (addr_page : Nat) (srs : Nat → Nat) :
    Nat × List (Nat × Nat) × Nat :=
  let writes :=
    [(F4_FLASH_KEYR, FLASH_KEY1), (F4_FLASH_KEYR, FLASH_KEY2),
     (F4_FLASH_SR, 0xF3)] ++
    (if addr_page = 0xa11 then
      [(F4_FLASH_CR, FLASH_CR_MER),
       (F4_FLASH_CR, F4_FLASH_CR_STRT ||| FLASH_CR_MER)]
     else
      [(F4_FLASH_CR, 0x00202 ||| ((addr_page &&& 0xf) <<< 3)),
       (F4_FLASH_CR, 0x10202 ||| ((addr_page &&& 0xf) <<< 3))])
  let m := lastPoll srs F4_FLASH_SR_BSY 0 999
  (0, writes, m + 1)

/-- `stl_L1_flash_erase(sl, addr_page)` at verbosity 0 (lines 1303-1346).
Unlocks with the PEKEYR and PRGKEYR key pairs, polls `L15_FLASH_SR`
against `FLASH_SR_BSY` with the 1000-read cap, then returns 0
unconditionally.  (The per-sector branch writes `F4_FLASH_CR`, as in the
source.) -/
def stl_L1_flash_erase (addr_page : Nat) (srs : Nat → Nat) :
    Nat × List (Nat × Nat) × Nat :=
  let writes :=
    [(L15_FLASH_PEKEYR, L15_FLASH_PEKEY1), (L15_FLASH_PEKEYR, L15_FLASH_PEKEY2),
     (L15_FLASH_PRGKEYR, L15_FLASH_PRGKEY1),
     (L15_FLASH_PRGKEYR, L15_FLASH_PRGKEY2)] ++
    (if addr_page = 0xa11 then
      [(L15_FLASH_OBR, 0x01), (L15_FLASH_OBR, 0xAA)]
     else
      [(F4_FLASH_CR, 0x00202 ||| ((addr_page &&& 0xf) <<< 3)),
       (F4_FLASH_CR, 0x10202 ||| ((addr_page &&& 0xf) <<< 3))])
  let m := lastPoll srs FLASH_SR_BSY 0 999
  (0, writes, m + 1)

/- ==================== stl_read (lines 1348-1376) ==================== -/

/-- The state of `sl->data_buf` after `stl_rd32_cmd(sl, a, len)`: bytes
`[0, len)` hold target memory starting at the 4-aligned address `a & ~3`;
bytes beyond `len` keep their previous (stale) contents. -/
def fillBuf (db mem : Nat → Nat) (a len : Nat) : Nat → Nat :=
  fun i => if i < len then mem (a - a % 4 + i) else db i

/-- The per-iteration transfer size before the `size & 3` adjustment:
`READ_BLK_SIZE` when more than 1 KB remains, else `(size+3) & ~3`. -/
def read_xfer0 (size : Nat) : Nat :=
  if READ_BLK_SIZE < size then READ_BLK_SIZE else size + 3 - (size + 3) % 4

/-- The byte count `memcpy` copies out of `data_buf` in one iteration:
reset to `size` whenever `size & 3` is non-zero (line 1369-1370). -/
def read_xfer (size : Nat) : Nat :=
  if size % 4 = 0 then read_xfer0 size else size

/-- The `do/while` loop of `stl_read` (lines 1362-1374).  Returns the bytes
appended to the caller's buffer from position `off` on; `db` is the current
`data_buf` contents.  Each iteration reads `read_xfer0 size` fresh bytes at
`addr + off` into `data_buf` and then copies `read_xfer size` bytes out of
`data_buf` — more than was read whenever `size > 1024` and `size % 4 ≠ 0`. -/
def stl_read_loopF (mem : Nat → Nat) (addr : Nat) :
    Nat → (Nat → Nat) → Nat → Nat → List Nat
  | 0, _, _, _ => []
  | f+1, db, off, size =>
    let db2 := fillBuf db mem (addr + off) (read_xfer0 size)
    let out := (List.range (read_xfer size)).map db2
    if 0 < size - read_xfer size then
      out ++ stl_read_loopF mem addr f db2 (off + read_xfer size)
        (size - read_xfer size)
    else out

/-- The loop with its fuel instantiated.  An iteration recurses only when
`size > READ_BLK_SIZE` and `size % 4 = 0`, consuming `READ_BLK_SIZE` bytes,
so `size + 1` steps of fuel are never exhausted. -/
def stl_read_loop (mem db : Nat → Nat) (addr off size : Nat) : List Nat :=
  stl_read_loopF mem addr (size + 1) db off size

/-- `stl_read(sl, addr, buf, size)` (lines 1352-1376): the full list of
bytes the call writes into the caller's buffer, starting at buffer offset 0.
For an unaligned `addr` the head fix-up performs one 4-byte read at
`addr & ~3` and copies the tail `4 - (addr & 3)` bytes — without reducing
`size`, exactly as the source does. -/
def stl_read (mem db : Nat → Nat) (addr size : Nat) : List Nat :=
  if addr % 4 ≠ 0 then
    let psz := 4 - addr % 4
    let db2 := fillBuf db mem addr 4
    (List.range psz).map (fun i => db2 (addr % 4 + i)) ++
      stl_read_loop mem db2 addr psz size
  else stl_read_loop mem db addr 0 size

/- ==================== stm_id_chip (lines 1634-1667) ==================== -/

/-- The MCU ID-code selection of `stm_id_chip` (lines 1636-1646): the core
ID is read but, despite the comment above the code, does not influence the
choice; the ID-code is read from `DBGMCU_IDCODE` (0xE0042000) and re-read
from 0x40015800 only when that value is 0.  Returns the value stored into
`sl->cpu_idcode` and the list of addresses read, in order. -/
def stm_id_chip_idcode (core_id : Nat) (rd : Nat → Nat) : Nat × List Nat :=
  let _ := core_id
  let idcode := rd DBGMCU_IDCODE
  if idcode = 0 then (rd 0x40015800, [DBGMCU_IDCODE, 0x40015800])
  else (idcode, [DBGMCU_IDCODE])

/- ==================== Reply decoding (lines 458-507, 586-602) ========== -/

/-- Value of a 4-byte memory region on a host of the given endianness
(`true` = big-endian), with `b0` the byte at the lowest address. -/
def natOfBytes32 (big : Bool) (b0 b1 b2 b3 : Nat) : Nat :=
  if big then 2^24 * b0 + 2^16 * b1 + 2^8 * b2 + b3
  else b0 + 2^8 * b1 + 2^16 * b2 + 2^24 * b3

/-- Value of a 2-byte memory region on a host of the given endianness. -/
def natOfBytes16 (big : Bool) (b0 b1 : Nat) : Nat :=
  if big then 2^8 * b0 + b1 else b0 + 2^8 * b1

/-- `read_uint32(c, pt)` (lines 490-507): on a little-endian host the bytes
are copied in order, on a big-endian host in reverse, and the resulting
4 bytes are read back as a host-order `uint32_t`. -/
def read_uint32 (big : Bool) (c : Nat → Nat) (pt : Nat) : Nat :=
  if !big then natOfBytes32 big (c pt) (c (pt+1)) (c (pt+2)) (c (pt+3))
  else natOfBytes32 big (c (pt+3)) (c (pt+2)) (c (pt+1)) (c pt)

/-- The value `stlink_cmd` returns (lines 596-601): a 2-byte reply is read
with `*(uint16_t *)sl->data_buf` — host byte order — while a 4-byte reply
goes through `read_uint32`; anything else returns 0.  `data k` is byte `k`
of the reply. -/
def stlink_cmd_result (big : Bool) (data : Nat → Nat) (resp_len : Nat) : Nat :=
  if resp_len = 2 then natOfBytes16 big (data 0) (data 1)
  else if resp_len = 4 then read_uint32 big data 0
  else 0

/- ==================== Concrete oracles for witnesses ==================== -/

/-- Entry 0 of `stm_devids`: the generic STM32 fallback personality. -/
def chip0 : stm_chip_params :=
  stm_devids.getD 0 ⟨"", 0, 0, 0, 0, 0, 0, 0, 0, 0, 0, 0⟩

/-- A status oracle whose core never reports halted. -/
def stNever : Nat → Nat → Nat := fun _ _ => 0x80

/-- A status oracle whose core reports halted at the first poll of every
chunk. -/
def stHalted : Nat → Nat → Nat := fun _ _ => STLINK_CORE_HALTED

/-- A flash status register that always reads busy (F4 layout). -/
def srsBusyF4 : Nat → Nat := fun _ => F4_FLASH_SR_BSY

/-- A memory oracle whose 32-bit read at `DBGMCU_IDCODE` returns a non-zero
value that is not a valid M0 ID-code location result. -/
def rdChipEx : Nat → Nat :=
  fun a => if a = DBGMCU_IDCODE then 0x12345678 else 0x20006440

/-- A 2-byte probe reply with distinct bytes: byte 0 = 0x80, byte 1 = 0x01. -/
def replyEx : Nat → Nat := fun i => if i = 0 then 0x80 else if i = 1 then 0x01 else 0

/-- A flash status register that reads EOP set and BSY clear. -/
def srsEOP : Nat → Nat := fun _ => FLASH_SR_EOP

/-- An all-zero byte source / initial data-buffer state. -/
def bufZero : Nat → Nat := fun _ => 0

/-- Target memory whose byte at address `a` is `a` itself (mod nothing;
the values stay below 256 on the small test windows used). -/
def memId : Nat → Nat := fun a => a

/-- Entry 9 of `stm_devids`: the XL-density F1 with 1 MB of flash. -/
def chipXL : stm_chip_params := stm_devids.getD 9 chip0

/-- Entry 13 of `stm_devids`: the STM32F407, an F4-capability personality. -/
def chipF407 : stm_chip_params := stm_devids.getD 13 chip0

/- ==================== Shared lemmas ==================== -/

theorem byteAt_append_right (pre l : List Nat) (i : Nat) (h : pre.length ≤ i) :
    byteAt (pre ++ l) i = byteAt l (i - pre.length) := by
  simp [byteAt, List.getElem?_append_right h]

theorem wordAt_append_right (pre M : List Nat) (i : Nat) (h : i = pre.length) :
    wordAt (pre ++ M) i = wordAt M 0 := by
  subst h
  unfold wordAt
  rw [byteAt_append_right _ _ _ (Nat.le_refl _),
      byteAt_append_right _ _ _ (by omega),
      byteAt_append_right _ _ _ (by omega),
      byteAt_append_right _ _ _ (by omega)]
  simp [Nat.sub_self, Nat.add_sub_cancel_left]

theorem wordAt_u32 (x : Nat) (rest : List Nat) :
    wordAt (u32BytesLE x ++ rest) 0 = x % 2^32 := by
  simp [wordAt, byteAt, u32BytesLE]
  omega

theorem stl_loader_code_length (chip : stm_chip_params) :
    (stl_loader_code chip).length = 60 := by
  unfold stl_loader_code
  split <;> rfl

theorem image_take_44 (chip : stm_chip_params) (fa : Nat) (buf : Nat → Nat)
    (size : Nat) :
    (stl_loader_image chip fa buf size).take 44 =
      (stl_loader_code chip).take 44 := by
  unfold stl_loader_image
  rw [stl_loader_code_length]
  have hlen : ((stl_loader_code chip).take (60 - 16)).length = 44 := by
    simp [stl_loader_code_length]
  rw [List.take_append_of_le_length (by omega)]
  simp [List.take_take]

theorem image_word_44 (chip : stm_chip_params) (fa : Nat) (buf : Nat → Nat)
    (size : Nat) :
    wordAt (stl_loader_image chip fa buf size) 44 =
      stl_loader_ctrl_base chip fa := by
  unfold stl_loader_image
  have hpre : ((stl_loader_code chip).take
      ((stl_loader_code chip).length - 16)).length = 44 := by
    simp [stl_loader_code_length]
  rw [wordAt_append_right _ _ _ hpre.symm, wordAt_u32]
  unfold stl_loader_ctrl_base F4_FLASH_REGS FLASH_REGS_ADDR
  split_ifs <;> decide

theorem image_word_48 (chip : stm_chip_params) (fa : Nat) (buf : Nat → Nat)
    (size : Nat) :
    wordAt (stl_loader_image chip fa buf size) 48 = sram0 + 60 := by
  unfold stl_loader_image
  rw [stl_loader_code_length, ← List.append_assoc]
  have hpre : ((stl_loader_code chip).take (60 - 16) ++
      u32BytesLE (stl_loader_ctrl_base chip fa)).length = 48 := by
    simp [stl_loader_code_length, u32BytesLE]
  rw [wordAt_append_right _ _ _ hpre.symm, wordAt_u32]
  decide

theorem image_word_52 (chip : stm_chip_params) (fa : Nat) (buf : Nat → Nat)
    (size : Nat) :
    wordAt (stl_loader_image chip fa buf size) 52 = fa % 2^32 := by
  unfold stl_loader_image
  rw [stl_loader_code_length, ← List.append_assoc, ← List.append_assoc]
  have hpre : (((stl_loader_code chip).take (60 - 16) ++
      u32BytesLE (stl_loader_ctrl_base chip fa)) ++
      u32BytesLE (sram0 + 60)).length = 52 := by
    simp [stl_loader_code_length, u32BytesLE]
  rw [wordAt_append_right _ _ _ hpre.symm, wordAt_u32]

theorem image_word_56 (chip : stm_chip_params) (fa : Nat) (buf : Nat → Nat)
    (size : Nat) :
    wordAt (stl_loader_image chip fa buf size) 56 = size / 2 % 2^32 := by
  unfold stl_loader_image
  rw [stl_loader_code_length, ← List.append_assoc, ← List.append_assoc,
      ← List.append_assoc]
  have hpre : ((((stl_loader_code chip).take (60 - 16) ++
      u32BytesLE (stl_loader_ctrl_base chip fa)) ++
      u32BytesLE (sram0 + 60)) ++ u32BytesLE fa).length = 56 := by
    simp [stl_loader_code_length, u32BytesLE]
  rw [wordAt_append_right _ _ _ hpre.symm, wordAt_u32]

theorem image_length (chip : stm_chip_params) (fa : Nat) (buf : Nat → Nat)
    (size : Nat) :
    (stl_loader_image chip fa buf size).length = 60 + size := by
  unfold stl_loader_image
  simp [stl_loader_code_length, u32BytesLE]
  omega

theorem image_drop_60 (chip : stm_chip_params) (fa : Nat) (buf : Nat → Nat)
    (size : Nat) :
    (stl_loader_image chip fa buf size).drop 60 = (List.range size).map buf := by
  unfold stl_loader_image
  rw [stl_loader_code_length, ← List.append_assoc, ← List.append_assoc,
      ← List.append_assoc, ← List.append_assoc]
  have hpre : (((((stl_loader_code chip).take (60 - 16) ++
      u32BytesLE (stl_loader_ctrl_base chip fa)) ++
      u32BytesLE (sram0 + 60)) ++ u32BytesLE fa) ++
      u32BytesLE (size / 2)).length = 60 := by
    simp [stl_loader_code_length, u32BytesLE]
  rw [List.drop_append_of_le_length (by omega)]
  have h2 : List.drop 60 ((((stl_loader_code chip).take (60 - 16) ++
      u32BytesLE (stl_loader_ctrl_base chip fa)) ++
      u32BytesLE (sram0 + 60)) ++ u32BytesLE fa ++
      u32BytesLE (size / 2)) = [] := by
    have h3 := List.drop_length ((((stl_loader_code chip).take (60 - 16) ++
      u32BytesLE (stl_loader_ctrl_base chip fa)) ++
      u32BytesLE (sram0 + 60)) ++ u32BytesLE fa ++
      u32BytesLE (size / 2))
    rwa [hpre] at h3
  rw [h2]
  simp

theorem chunkSizesF_sum : ∀ f size, size ≤ f →
    (chunkSizesF size (f+1)).sum = size + size % 2 := by
  intro f
  induction f with
  | zero =>
    intro size h
    interval_cases size
    rfl
  | succ f ih =>
    intro size h
    show (chunkSizesF size (f+1+1)).sum = size + size % 2
    rw [chunkSizesF]
    by_cases h1 : FLASH_WR_BLK_SIZE < size
    · rw [if_pos h1]
      have hb : FLASH_WR_BLK_SIZE = 2048 := rfl
      rw [List.sum_cons, ih (size - FLASH_WR_BLK_SIZE) (by omega)]
      omega
    · rw [if_neg h1]
      by_cases h2 : size % 2 = 1
      · rw [if_pos h2]; simp; omega
      · rw [if_neg h2]; simp; omega

theorem chunkSizesF_mem : ∀ f size, size ≤ f → 0 < size →
    ∀ c ∈ chunkSizesF size (f+1),
      0 < c ∧ c ≤ FLASH_WR_BLK_SIZE ∧ c % 2 = 0 := by
  intro f
  induction f with
  | zero => intro size h hpos; omega
  | succ f ih =>
    intro size h hpos c hc
    rw [chunkSizesF] at hc
    have hb : FLASH_WR_BLK_SIZE = 2048 := rfl
    by_cases h1 : FLASH_WR_BLK_SIZE < size
    · rw [if_pos h1] at hc
      rcases List.mem_cons.mp hc with h2 | h2
      · omega
      · exact ih (size - FLASH_WR_BLK_SIZE) (by omega) (by omega) c h2
    · rw [if_neg h1] at hc
      by_cases h2 : size % 2 = 1
      · rw [if_pos h2] at hc
        simp at hc
        omega
      · rw [if_neg h2] at hc
        simp at hc
        omega

theorem chunkSizes_shape (size : Nat) :
    ∃ c l, chunkSizes size = c :: l := by
  unfold chunkSizes chunkSizesF
  split_ifs <;> exact ⟨_, _, rfl⟩

theorem loaderPoll_none (st : Nat → Nat) : ∀ f i,
    (∀ k, i ≤ k → k < i + f → st k ≠ STLINK_CORE_HALTED) →
    loaderPoll st i f = none := by
  intro f
  induction f with
  | zero => intro i _; rfl
  | succ f ih =>
    intro i h
    rw [loaderPoll, if_neg (h i (Nat.le_refl i) (by omega))]
    exact ih (i+1) (fun k hk1 hk2 => h k (by omega) (by omega))

theorem filter_reg_wr32_cmd (addr : Nat) (data : List Nat) :
    (stl_wr32_cmd_acts addr data).filter isRegAct = [] := by
  unfold stl_wr32_cmd_acts
  split_ifs <;> rfl

theorem filter_reg_loader_acts (chip : stm_chip_params) (fa : Nat)
    (buf : Nat → Nat) (size : Nat) :
    (stl_loader_acts chip fa buf size).filter isRegAct = [] := by
  unfold stl_loader_acts
  rw [List.filter_append, filter_reg_wr32_cmd]
  rfl

theorem filter_reg_replicate (n : Nat) :
    (List.replicate n Act.getStatus).filter isRegAct = [] := by
  induction n with
  | zero => rfl
  | succ n ih => rw [List.replicate_succ, List.filter_cons]; simp [isRegAct, ih]

theorem countP_status_wr32_cmd (addr : Nat) (data : List Nat) :
    (stl_wr32_cmd_acts addr data).countP isStatusAct = 0 := by
  unfold stl_wr32_cmd_acts
  split_ifs <;> rfl

theorem countP_status_loader_acts (chip : stm_chip_params) (fa : Nat)
    (buf : Nat → Nat) (size : Nat) :
    (stl_loader_acts chip fa buf size).countP isStatusAct = 0 := by
  unfold stl_loader_acts
  rw [List.countP_append, countP_status_wr32_cmd]
  rfl

theorem countP_status_replicate (n : Nat) :
    (List.replicate n Act.getStatus).countP isStatusAct = n := by
  induction n with
  | zero => rfl
  | succ n ih =>
    rw [List.replicate_succ, List.countP_cons, ih]
    rfl

theorem go_filter_reg (chip : stm_chip_params) (fa : Nat) (buf : Nat → Nat)
    (st : Nat → Nat → Nat) (sr : Nat)
    (h : ∀ i, (loaderPoll (st i) 0 (FLASH_POLL_LIMIT + 1)).isSome) :
    ∀ l i off,
      ((stl_flash_write_go chip fa buf st sr i off l).2).filter isRegAct =
        [Act.r32 FLASH_SR, Act.w32 FLASH_CR 0x80] := by
  intro l
  induction l with
  | nil => intro i off; rfl
  | cons c rest ih =>
    intro i off
    obtain ⟨k, hk⟩ := Option.isSome_iff_exists.mp (h i)
    rw [stl_flash_write_go, hk]
    simp only [List.filter_append, filter_reg_loader_acts,
      filter_reg_replicate, ih, List.nil_append]

theorem lastPoll_le (srs : Nat → Nat) (mask : Nat) : ∀ f i,
    lastPoll srs mask i f ≤ i + f := by
  intro f
  induction f with
  | zero => intro i; simp [lastPoll]
  | succ f ih =>
    intro i
    rw [lastPoll]
    split
    · omega
    · have := ih (i+1); omega

theorem lastPoll_busy_before (srs : Nat → Nat) (mask : Nat) : ∀ f i k,
    i ≤ k → k < lastPoll srs mask i f → srs k &&& mask ≠ 0 := by
  intro f
  induction f with
  | zero => intro i k h1 h2; simp [lastPoll] at h2; omega
  | succ f ih =>
    intro i k h1 h2
    rw [lastPoll] at h2
    by_cases hc : srs i &&& mask = 0
    · rw [if_pos hc] at h2; omega
    · rw [if_neg hc] at h2
      rcases Nat.eq_or_lt_of_le h1 with h3 | h3
      · subst h3; exact hc
      · exact ih (i+1) k h3 h2

theorem lastPoll_final (srs : Nat → Nat) (mask : Nat) : ∀ f i,
    srs (lastPoll srs mask i f) &&& mask = 0 ∨
      lastPoll srs mask i f = i + f := by
  intro f
  induction f with
  | zero => intro i; right; rfl
  | succ f ih =>
    intro i
    rw [lastPoll]
    by_cases hc : srs i &&& mask = 0
    · rw [if_pos hc]; left; exact hc
    · rw [if_neg hc]
      rcases ih (i+1) with h | h
      · left; exact h
      · right; omega

/- ==================== Claim theorems ==================== -/

set_option maxRecDepth 100000

/-- C2: the claim says `stl_read` copies exactly `n` bytes — the bytes at
`addr .. addr+n-1` — into the caller's buffer for every alignment.  The code
contradicts this (and its own doc comment, "Read from device memory at ADDR
into BUF for SIZE bytes"): the unaligned head fix-up copies `4 - (addr & 3)`
bytes without reducing `size`, so at `addr = 1`, `n = 4` the call writes
7 bytes — target bytes 1..7 — into the caller's buffer instead of the
requested 4 bytes 1..4. -/
theorem stl_read_unaligned_overcopy :
    stl_read memId bufZero 1 4 = [1, 2, 3, 4, 5, 6, 7] ∧
    (stl_read memId bufZero 1 4).length ≠ 4 := by
  decide

/-- C4: `stl_flash_write` splits every write into chunks of at most
`FLASH_WR_BLK_SIZE` = 2048 bytes and loops until all bytes are consumed
(their sum is the request rounded up to even, each chunk is positive, even,
and at most 2048); a 2048-byte write uses one chunk, a 2049-byte write two,
and a 1-byte write is padded up by exactly one byte. -/
theorem stl_flash_write_chunking :
    (∀ size, 0 < size →
      (chunkSizes size).sum = size + size % 2 ∧
      ∀ c ∈ chunkSizes size, 0 < c ∧ c ≤ FLASH_WR_BLK_SIZE ∧ c % 2 = 0) ∧
    chunkSizes 2048 = [2048] ∧
    chunkSizes 2049 = [2048, 2] ∧
    chunkSizes 1 = [2] := by
  refine ⟨fun size h => ⟨?_, ?_⟩, by decide, by decide, by decide⟩
  · exact chunkSizesF_sum size size (Nat.le_refl size)
  · exact chunkSizesF_mem size size (Nat.le_refl size) h

/-- C4 witness: the chunking theorem applied at the concrete size 300. -/
theorem stl_flash_write_chunking_witness :
    (chunkSizes 300).sum = 300 + 300 % 2 :=
  (stl_flash_write_chunking.1 300 (by decide)).1

/-- C7 counterexample: the claim says every family's erase returns a failure
result when BSY does not clear within the 1000-poll cap.  On the F4 path,
with a status register that always reads busy, the poll loop runs the full
1000 reads and the function still returns 0 — the success value. -/
theorem f4_erase_busy_timeout_returns_zero :
    (stl_f4_flash_erase 0x08004000 srsBusyF4).1 = 0 ∧
    (stl_f4_flash_erase 0x08004000 srsBusyF4).2.2 = 1000 := by
  decide

/-- C7 amended: every erase driver bounds its BSY polling at 1000 status
reads, but only the F1 driver can return failure — it returns 1 exactly when
EOP is clear in the final polled status — while the F4 and L1 drivers return
0 unconditionally, reporting the final status only in verbose output. -/
theorem erase_poll_bounds (addr : Nat) (srs : Nat → Nat) :
    (stl_f4_flash_erase addr srs).1 = 0 ∧
    (stl_f4_flash_erase addr srs).2.2 ≤ 1000 ∧
    (stl_L1_flash_erase addr srs).1 = 0 ∧
    (stl_L1_flash_erase addr srs).2.2 ≤ 1000 ∧
    (stl_f1_flash_erase addr srs).2.2 ≤ 1000 ∧
    ((stl_f1_flash_erase addr srs).1 = 1 ↔
      srs (lastPoll srs FLASH_SR_BSY 0 999) &&& FLASH_SR_EOP = 0) := by
  refine ⟨rfl, ?_, rfl, ?_, ?_, ?_⟩
  · simp only [stl_f4_flash_erase]
    have := lastPoll_le srs F4_FLASH_SR_BSY 999 0
    omega
  · simp only [stl_L1_flash_erase]
    have := lastPoll_le srs FLASH_SR_BSY 999 0
    omega
  · simp only [stl_f1_flash_erase]
    have := lastPoll_le srs FLASH_SR_BSY 999 0
    omega
  · simp only [stl_f1_flash_erase]
    split_ifs with hc
    · simp [hc]
    · simp [hc]

/-- C8: the claim (and the comment at lines 1640-1642 of the source) says
the MCU ID-code is read from 0x40015800 when the core ID indicates a
Cortex-M0 (0x0bb11477) and from 0xE0042000 otherwise.  The code instead
ignores the core ID entirely: it always reads 0xE0042000 first and falls
back to 0x40015800 only when that read returns 0.  With a Cortex-M0 core ID
and a non-zero value at 0xE0042000 the code keeps that value (first
failing input); with a Cortex-M3 core ID and a zero at 0xE0042000 it reads
0x40015800 (second failing input). -/
theorem stm_id_chip_idcode_ignores_core_id :
    (∀ c1 c2 rd, stm_id_chip_idcode c1 rd = stm_id_chip_idcode c2 rd) ∧
    stm_id_chip_idcode 0x0bb11477 rdChipEx = (0x12345678, [0xE0042000]) ∧
    stm_id_chip_idcode 0x1ba01477 bufZero = (0, [0xE0042000, 0x40015800]) := by
  refine ⟨fun c1 c2 rd => rfl, by decide, by decide⟩

/-- C9 counterexample: the claim says a 2-byte reply decodes to the
little-endian value of its bytes regardless of host byte order.  For the
reply bytes 0x80, 0x01 the code (`*(uint16_t *)sl->data_buf`) yields 0x8001
on a big-endian host but 0x0180 — the little-endian value — on a
little-endian host, so the 2-byte result is host-dependent. -/
theorem stlink_cmd_2byte_host_dependent :
    stlink_cmd_result true replyEx 2 = 0x8001 ∧
    stlink_cmd_result false replyEx 2 = 0x0180 := by
  decide

/-- C9 amended: a 4-byte reply decodes through `read_uint32` to the
little-endian value of its bytes on either host byte order; a 2-byte reply
is read back in host byte order, so it equals the little-endian
interpretation on a little-endian host and the byte-swapped value on a
big-endian host. -/
theorem stlink_cmd_reply_decoding (big : Bool) (d : Nat → Nat) :
    stlink_cmd_result big d 4 = d 0 + 2^8 * d 1 + 2^16 * d 2 + 2^24 * d 3 ∧
    stlink_cmd_result false d 2 = d 0 + 2^8 * d 1 ∧
    stlink_cmd_result true d 2 = 2^8 * d 0 + d 1 := by
  cases big <;> refine ⟨?_, ?_, ?_⟩ <;>
    simp [stlink_cmd_result, read_uint32, natOfBytes32, natOfBytes16] <;>
    ring

/-- C1 counterexample: the claim says that when the poll for a halted core
exceeds `FLASH_POLL_LIMIT` the flash write returns a failure result that
surfaces the timeout and does not report success.  With a core that never
reports halted the function does give up — after exactly 201 status polls —
but it executes `return 0` (line 1176), and 0 is precisely the value the
fully successful path returns when no `FLASH_SR` error bits are set, even
when the (never read) status register holds error bits 0x14. -/
theorem stl_flash_write_timeout_eq_success :
    (stl_flash_write chip0 0x08000000 bufZero 4 stNever 0x14).1 = 0 ∧
    numPolls (stl_flash_write chip0 0x08000000 bufZero 4 stNever 0x14).2 =
      201 ∧
    (stl_flash_write chip0 0x08000000 bufZero 4 stHalted 0).1 = 0 := by
  decide

/-- C1 amended: when every status poll of the first chunk reports
not-halted, `stl_flash_write` gives up after exactly `FLASH_POLL_LIMIT + 1`
(= 201) polls — it does not hang — and returns 0, which is the same value
the error-free success path returns; the timeout is surfaced only as a
verbose printout, not in the return value. -/
theorem stl_flash_write_poll_cap (chip : stm_chip_params) (fa : Nat)
    (buf : Nat → Nat) (size : Nat) (st : Nat → Nat → Nat) (sr : Nat)
    (h : ∀ k, k ≤ FLASH_POLL_LIMIT → st 0 k ≠ STLINK_CORE_HALTED) :
    (stl_flash_write chip fa buf size st sr).1 = 0 ∧
    numPolls (stl_flash_write chip fa buf size st sr).2 =
      FLASH_POLL_LIMIT + 1 := by
  obtain ⟨c, l, hcl⟩ := chunkSizes_shape size
  have hnone : loaderPoll (st 0) 0 (FLASH_POLL_LIMIT + 1) = none :=
    loaderPoll_none (st 0) (FLASH_POLL_LIMIT + 1) 0
      (fun k _ h2 => h k (by omega))
  constructor
  · simp only [stl_flash_write, hcl, stl_flash_write_go, hnone]
  · simp only [stl_flash_write, hcl, stl_flash_write_go, hnone, numPolls,
      List.countP_cons, List.countP_append, countP_status_loader_acts,
      countP_status_replicate, isStatusAct]
    rfl

/-- C1 witness: the amended theorem applied to a device whose core never
reports halted. -/
theorem stl_flash_write_poll_cap_witness :
    (stl_flash_write chip0 0x08000000 bufZero 8 stNever 0).1 = 0 ∧
    numPolls (stl_flash_write chip0 0x08000000 bufZero 8 stNever 0).2 =
      FLASH_POLL_LIMIT + 1 :=
  stl_flash_write_poll_cap chip0 0x08000000 bufZero 8 stNever 0
    (fun k _ => by simp [stNever, STLINK_CORE_HALTED])

/-- C3 counterexample: the claim says the chunk payload is uploaded together
with program and parameters in a single 32-bit memory write of length
`prog_len + payload size`, and that bytes `[0, prog_len)` of the image are
the loader program.  For a 6-byte chunk the total length is 66 — not a
multiple of 4 and not below 64 — so `stl_wr32_cmd` refuses it (line 652)
and no memory write is issued at all; and the image byte at offset 48 is
0x3C (the patched source-address word) where the loader program array holds
0x40, so the image does not reproduce the program over all of
`[0, prog_len)`. -/
theorem stl_loader_upload_not_single_write :
    stl_loader_acts chip0 0x08000000 bufZero 6 =
      [Act.wrReg 15 sram0, Act.runCore] ∧
    byteAt (stl_loader_image chip0 0x08000000 bufZero 8) 48 = 0x3C ∧
    byteAt (stl_loader_code chip0) 48 = 0x40 := by
  decide

/-- C3 amended: for every chunk, the SRAM image is laid out as the claim
says — bytes `[0, prog_len-16)` are the selected loader program (whose
final 16 placeholder bytes are overwritten by the parameter block), the four
32-bit words at `[prog_len-16, prog_len)` are {flash-controller base,
SRAM base + prog_len, destination flash address, byte size shifted right by
one}, and the payload sits immediately after the parameter block — with
`prog_len` = 60 for both loader variants; the combined image of length
`prog_len + size` is uploaded to the SRAM base in a single 32-bit memory
write only when its length is a multiple of 4 (payload size ≡ 0 mod 4);
otherwise the 8-bit write form is used when the length is under 64 bytes,
and no transfer is issued at all otherwise. -/
theorem stl_loader_image_spec (chip : stm_chip_params) (fa : Nat)
    (buf : Nat → Nat) (size : Nat) :
    (stl_loader_code chip).length = 60 ∧
    (stl_loader_image chip fa buf size).length = 60 + size ∧
    (stl_loader_image chip fa buf size).take 44 =
      (stl_loader_code chip).take 44 ∧
    wordAt (stl_loader_image chip fa buf size) 44 =
      stl_loader_ctrl_base chip fa ∧
    wordAt (stl_loader_image chip fa buf size) 48 = sram0 + 60 ∧
    wordAt (stl_loader_image chip fa buf size) 52 = fa % 2^32 ∧
    wordAt (stl_loader_image chip fa buf size) 56 = size / 2 % 2^32 ∧
    (stl_loader_image chip fa buf size).drop 60 = (List.range size).map buf ∧
    (size % 4 = 0 →
      stl_loader_acts chip fa buf size =
        [Act.wrMem32 sram0 (stl_loader_image chip fa buf size),
         Act.wrReg 15 sram0, Act.runCore]) ∧
    (size % 4 ≠ 0 → 60 + size < 64 →
      stl_loader_acts chip fa buf size =
        [Act.wrMem8 sram0 (stl_loader_image chip fa buf size),
         Act.wrReg 15 sram0, Act.runCore]) ∧
    (size % 4 ≠ 0 → 64 ≤ 60 + size →
      stl_loader_acts chip fa buf size = [Act.wrReg 15 sram0, Act.runCore]) := by
  refine ⟨stl_loader_code_length chip, image_length chip fa buf size,
    image_take_44 chip fa buf size, image_word_44 chip fa buf size,
    image_word_48 chip fa buf size, image_word_52 chip fa buf size,
    image_word_56 chip fa buf size, image_drop_60 chip fa buf size,
    ?_, ?_, ?_⟩
  · intro h4
    unfold stl_loader_acts stl_wr32_cmd_acts
    rw [image_length, if_pos (by omega)]
    rfl
  · intro h4 hlt
    unfold stl_loader_acts stl_wr32_cmd_acts
    rw [image_length, if_neg (by omega), if_pos (by omega)]
    rfl
  · intro h4 hge
    unfold stl_loader_acts stl_wr32_cmd_acts
    rw [image_length, if_neg (by omega), if_neg (by omega)]
    rfl

/-- C3 witness: the amended theorem applied at a 4-byte chunk, where the
upload is the single 32-bit memory write of the combined image. -/
theorem stl_loader_image_spec_witness :
    stl_loader_acts chip0 0x08000000 bufZero 4 =
      [Act.wrMem32 sram0 (stl_loader_image chip0 0x08000000 bufZero 4),
       Act.wrReg 15 sram0, Act.runCore] :=
  (stl_loader_image_spec chip0 0x08000000 bufZero 4).2.2.2.2.2.2.2.2.1
    (by decide)

/-- C5: the flash-controller base word in the loader parameter block (the
32-bit word at image offset 44) is 0x40022040 exactly when the personality
is non-F4, its table flash size exceeds 256 KB, and the destination address
is at least 0x08080000; every other non-F4 write gets the normal F1 base
0x40022000, and an F4-capability personality always gets F4_FLASH_REGS
(0x40023C00). -/
theorem stl_loader_upper_bank (chip : stm_chip_params) (fa : Nat)
    (buf : Nat → Nat) (size : Nat) :
    (wordAt (stl_loader_image chip fa buf size) 44 = 0x40022040 ↔
      chip.cap_flags &&& ChipCapF4Flash = 0 ∧ 256*1024 < chip.flash_size ∧
        0x08080000 ≤ fa) ∧
    (chip.cap_flags &&& ChipCapF4Flash ≠ 0 →
      wordAt (stl_loader_image chip fa buf size) 44 = F4_FLASH_REGS) ∧
    (chip.cap_flags &&& ChipCapF4Flash = 0 →
      ¬(256*1024 < chip.flash_size ∧ 0x08080000 ≤ fa) →
      wordAt (stl_loader_image chip fa buf size) 44 = FLASH_REGS_ADDR) := by
  rw [image_word_44]
  unfold stl_loader_ctrl_base
  split_ifs with h1 h2
  · exact ⟨⟨fun hEq => absurd hEq (by decide), fun hc => absurd hc.1 h1⟩,
      fun _ => rfl, fun h0 _ => absurd h0 h1⟩
  · have h1e : chip.cap_flags &&& ChipCapF4Flash = 0 := not_not.mp h1
    exact ⟨⟨fun _ => ⟨h1e, h2⟩, fun _ => rfl⟩,
      fun hf => absurd h1e hf, fun _ hn => absurd h2 hn⟩
  · have h1e : chip.cap_flags &&& ChipCapF4Flash = 0 := not_not.mp h1
    exact ⟨⟨fun hEq => absurd hEq (by decide),
      fun hc => absurd ⟨hc.2.1, hc.2.2⟩ h2⟩,
      fun hf => absurd h1e hf, fun _ _ => rfl⟩

/-- C5 witness: the selection theorem applied at the XL-density F1 (1 MB
flash) writing the upper bank, at the same chip writing the lower bank, and
at the F407. -/
theorem stl_loader_upper_bank_witness :
    wordAt (stl_loader_image chipXL 0x08080000 bufZero 4) 44 = 0x40022040 ∧
    wordAt (stl_loader_image chipXL 0x08000000 bufZero 4) 44 =
      FLASH_REGS_ADDR ∧
    wordAt (stl_loader_image chipF407 0x08080000 bufZero 4) 44 =
      F4_FLASH_REGS :=
  ⟨(stl_loader_upper_bank chipXL 0x08080000 bufZero 4).1.mpr
      ⟨by decide, by decide, by decide⟩,
   (stl_loader_upper_bank chipXL 0x08000000 bufZero 4).2.2
      (by decide) (by decide),
   (stl_loader_upper_bank chipF407 0x08080000 bufZero 4).2.1 (by decide)⟩

/-- C6: a non-sentinel F1 page erase performs exactly the write sequence
{KEY1, KEY2 to FLASH_KEYR; EOP|WRPRTERR|PGERR (= 0x34) to FLASH_SR; the page
address to FLASH_AR; PER to FLASH_CR; STRT|PER to FLASH_CR}, polls FLASH_SR
at most 1000 times, stops early only when BSY is clear, and returns success
(0) exactly when EOP is set in the final polled status. -/
theorem stl_f1_flash_erase_page (addr : Nat) (srs : Nat → Nat)
    (h : addr ≠ 0xa11) :
    (stl_f1_flash_erase addr srs).2.1 =
      [(FLASH_KEYR, FLASH_KEY1), (FLASH_KEYR, FLASH_KEY2),
       (FLASH_SR, 0x34), (FLASH_AR, addr), (FLASH_CR, FLASH_CR_PER),
       (FLASH_CR, FLASH_CR_STRT ||| FLASH_CR_PER)] ∧
    (stl_f1_flash_erase addr srs).2.2 ≤ 1000 ∧
    (∀ k, k < lastPoll srs FLASH_SR_BSY 0 999 →
      srs k &&& FLASH_SR_BSY ≠ 0) ∧
    (srs (lastPoll srs FLASH_SR_BSY 0 999) &&& FLASH_SR_BSY = 0 ∨
      (stl_f1_flash_erase addr srs).2.2 = 1000) ∧
    ((stl_f1_flash_erase addr srs).1 = 0 ↔
      srs (lastPoll srs FLASH_SR_BSY 0 999) &&& FLASH_SR_EOP ≠ 0) := by
  refine ⟨?_, ?_, ?_, ?_, ?_⟩
  · simp only [stl_f1_flash_erase]
    rw [if_neg h]
    rfl
  · simp only [stl_f1_flash_erase]
    have := lastPoll_le srs FLASH_SR_BSY 999 0
    omega
  · exact fun k hk =>
      lastPoll_busy_before srs FLASH_SR_BSY 999 0 k (Nat.zero_le k) hk
  · rcases lastPoll_final srs FLASH_SR_BSY 999 0 with hf | hf
    · exact Or.inl hf
    · right
      simp only [stl_f1_flash_erase]
      omega
  · simp only [stl_f1_flash_erase]
    split_ifs with hc
    · simp [hc]
    · simp [hc]

/-- C6 witness: the erase theorem applied at page address 0x08000400 with a
status register reading EOP set and BSY clear. -/
theorem stl_f1_flash_erase_page_witness :
    (stl_f1_flash_erase 0x08000400 srsEOP).2.1 =
      [(FLASH_KEYR, FLASH_KEY1), (FLASH_KEYR, FLASH_KEY2),
       (FLASH_SR, 0x34), (FLASH_AR, 0x08000400), (FLASH_CR, FLASH_CR_PER),
       (FLASH_CR, FLASH_CR_STRT ||| FLASH_CR_PER)] :=
  (stl_f1_flash_erase_page 0x08000400 srsEOP (by decide)).1

/-- C10: for every personality — F4- and L1-capable ones included — every
completing `stl_flash_write` performs its direct flash-register operations
at the F1 addresses: the two unlock keys go to 0x40022004 (F1 FLASH_KEYR),
the 0x34 error-bit clear and the final status read use 0x4002200C (F1
FLASH_SR), and the concluding re-lock writes 0x80 to 0x40022010 (F1
FLASH_CR); the only family-dependent word in the loader parameter block is
the flash-controller base, since the other three parameter words are the
chip-independent values proved here. -/
theorem stl_flash_write_f1_regs (chip : stm_chip_params) (fa : Nat)
    (buf : Nat → Nat) (size : Nat) (st : Nat → Nat → Nat) (sr : Nat)
    (h : ∀ i, (loaderPoll (st i) 0 (FLASH_POLL_LIMIT + 1)).isSome) :
    ((stl_flash_write chip fa buf size st sr).2).filter isRegAct =
      [Act.w32 0x40022004 0x45670123, Act.w32 0x40022004 0xcdef89ab,
       Act.w32 0x4002200c 0x34, Act.r32 0x4002200c,
       Act.w32 0x40022010 0x80] ∧
    wordAt (stl_loader_image chip fa buf size) 48 = 0x2000003C ∧
    wordAt (stl_loader_image chip fa buf size) 52 = fa % 2^32 ∧
    wordAt (stl_loader_image chip fa buf size) 56 = size / 2 % 2^32 := by
  refine ⟨?_, ?_, image_word_52 chip fa buf size, image_word_56 chip fa buf size⟩
  · have hg := go_filter_reg chip fa buf st sr h (chunkSizes size) 0 0
    simp only [stl_flash_write, List.filter_cons, hg]
    decide
  · rw [image_word_48]
    decide

/-- C10 witness: the register-trace theorem applied at the F4-capable F407
personality with a first-poll-halted core. -/
theorem stl_flash_write_f1_regs_witness :
    ((stl_flash_write chipF407 0x08000000 bufZero 4 stHalted 0).2).filter
        isRegAct =
      [Act.w32 0x40022004 0x45670123, Act.w32 0x40022004 0xcdef89ab,
       Act.w32 0x4002200c 0x34, Act.r32 0x4002200c,
       Act.w32 0x40022010 0x80] :=
  (stl_flash_write_f1_regs chipF407 0x08000000 bufZero 4 stHalted 0
    (fun _ => rfl)).1

end StlinkDownload
